import Mathlib

/-!
Formal model of the web tools in `nanobot/agent/tools/web.py`: the
schema-driven argument adaptation of `WebSearchTool`, the URL validation,
extraction dispatch and truncation of `WebFetchTool`, and the HTML
tag-stripping helpers.  Strings are modelled as lists of characters
(`Str`); Python dictionaries as insertion-ordered association lists.
-/

namespace Nanobot

/-- Python strings, modelled as lists of Unicode characters. -/
abbrev Str := List Char

/-- Python `str.lower()` (the keys handled here are ASCII). -/
def lowerStr (s : Str) : Str := s.map Char.toLower

/-- Helper for `pyContains`: does `pat` match at the front of `s`? -/
def listPre (pat s : Str) : Bool :=
  match pat, s with
  | [], _ => true
  | _ :: _, [] => false
  | p :: ps, c :: cs => p == c && listPre ps cs

/-- Python's substring test `pat in s`. -/
def pyContains (s pat : Str) : Bool :=
  match s with
  | [] => pat.isEmpty
  | c :: rest => listPre pat (c :: rest) || pyContains rest pat

/-! ## WebSearchTool._build_arguments -/

/-- The slice of a discovered remote operation's `inputSchema` that
`_build_arguments` inspects: the ordered key list of `properties` and the
`required` list. -/
structure InputSchema where
  properties : List Str
  required : List Str

/-- A JSON argument value: the query string or the count integer. -/
inductive ArgValue
  | str (s : Str)
  | int (n : Int)
deriving DecidableEq, Repr

/-- Python dict assignment `d[k] = v`: overwrite in place or append. -/
def dictInsert (k : Str) (v : ArgValue) : List (Str × ArgValue) → List (Str × ArgValue)
  | [] => [(k, v)]
  | (k2, v2) :: rest => if k2 = k then (k, v) :: rest else (k2, v2) :: dictInsert k v rest

/-- Python dict lookup `d[k]`. -/
def dictLookup (d : List (Str × ArgValue)) (k : Str) : Option ArgValue :=
  match d with
  | [] => none
  | (k2, v) :: rest => if k2 = k then some v else dictLookup rest k

/-- The query-parameter test of `_build_arguments`:
`param_name.lower() == "query" or "query" in param_name.lower()`. -/
def queryParamMatch (k : Str) : Bool :=
  lowerStr k == "query".data || pyContains (lowerStr k) "query".data

/-- The count-parameter test of `_build_arguments`:
`any(keyword in param_lower for keyword in ["count", "num", "limit", "size"])`. -/
def countParamMatch (k : Str) : Bool :=
  ["count".data, "num".data, "limit".data, "size".data].any
    (fun kw => pyContains (lowerStr k) kw)

/-- The key that receives the query string: the first `properties` key
passing `queryParamMatch` (the for-loop with `break`), else the first such
`required` entry, else the literal `"query"`. -/
def queryKeyCode (schema : InputSchema) : Str :=
  match schema.properties.find? queryParamMatch with
  | some k => k
  | none =>
    match schema.required.find? queryParamMatch with
    | some k => k
    | none => "query".data

/-- The key that receives the count, when one is found: the first
`properties` key passing `countParamMatch`, else the first such `required`
entry, else none (the count argument is omitted). -/
def countKeyCode (schema : InputSchema) : Option Str :=
  match schema.properties.find? countParamMatch with
  | some k => some k
  | none => schema.required.find? countParamMatch

/-- Python `count or self.max_results`: `None` and `0` are falsy, any
other integer is kept. -/
def pyOrInt (c : Option Int) (d : Int) : Int :=
  match c with
  | some v => if v = 0 then d else v
  | none => d

/-- The count value of `_build_arguments`:
`min(max(count or self.max_results, 1), 10)`. -/
def clampCount (c : Option Int) (maxResults : Int) : Int :=
  min (max (pyOrInt c maxResults) 1) 10

/-- WebSearchTool._build_arguments: assign the query string to the
resolved query key, then, when a count-like key exists, assign the
clamped count to it. -/
def build_arguments (schema : InputSchema) (query : Str) (count : Option Int)
    (maxResults : Int) : List (Str × ArgValue) :=
  let args1 := dictInsert (queryKeyCode schema) (.str query) []
  match countKeyCode schema with
  | some k => dictInsert k (.int (clampCount count maxResults)) args1
  | none => args1

/-- Modelled from the spec for claim C1: scan `schema.properties` keys in
declared order and select the first key whose lowercase form equals or
contains `"query"`; if none, scan `schema.required` in order with the same
predicate; if still none, fall back to the literal key `"query"`. -/
def resolveQueryKeySpec (schema : InputSchema) : Str :=
  let pred : Str → Bool := fun k =>
    lowerStr k == "query".data || pyContains (lowerStr k) "query".data
  match schema.properties.find? pred with
  | some k => k
  | none =>
    match schema.required.find? pred with
    | some k => k
    | none => "query".data

/-- The clamp the spec speaks about for the count value. -/
def clampSpec (c : Int) : Int := min (max c 1) 10

/-! ## Regex-substitution scanner

Python's `re.sub` scans left to right, replacing each leftmost
non-overlapping match and continuing after it.  `subScan` models this: at
each position `step` either recognises a match (returning the replacement
and the input remaining after the match, having consumed at least one
character) or the scan advances one character.  Every step used below
consumes at least one character, so fuel `s.length` is never exhausted. -/

def subScan (step : Str → Option (Str × Str)) : Nat → Str → Str
  | _, [] => []
  | 0, s => s
  | fuel + 1, c :: rest =>
    match step (c :: rest) with
    | some (rep, rest2) => rep ++ subScan step fuel rest2
    | none => c :: subScan step fuel rest

/-- Case-insensitive prefix match against a lowercase pattern. -/
def listPreCI (pat s : Str) : Bool :=
  match pat, s with
  | [], _ => true
  | _ :: _, [] => false
  | p :: ps, c :: cs => p == c.toLower && listPreCI ps cs

/-- Index of the first case-insensitive occurrence of `pat`. -/
def findCI (pat : Str) : Str → Option Nat
  | [] => if pat.isEmpty then some 0 else none
  | c :: rest =>
    if listPreCI pat (c :: rest) then some 0
    else (findCI pat rest).map (· + 1)

/-! ## _strip_tags -/

/-- Step for `re.sub(r'<script[\s\S]*?</script>', '', text, flags=re.I)`
(and the style variant): an opening tag whose trailing `openTag` text
follows `<`, removed together with everything up to and including the
first case-insensitive occurrence of `closeTag`; without a closing tag
there is no match. -/
def blockStep (openTag closeTag : Str) (s : Str) : Option (Str × Str) :=
  match s with
  | [] => none
  | c :: rest =>
    if c = '\x3c' ∧ listPreCI openTag rest then
      match findCI closeTag (rest.drop openTag.length) with
      | some j => some ([], (rest.drop openTag.length).drop (j + closeTag.length))
      | none => none
    else none

/-- Step for `re.sub(r'<[^>]+>', '', text)`: a `<` with at least one
non-`>` character before the next `>` is removed through that `>`. -/
def tagStep (s : Str) : Option (Str × Str) :=
  match s with
  | [] => none
  | c :: rest =>
    if c = '\x3c' then
      match rest.findIdx? (fun x => x == '\x3e') with
      | some j => if j = 0 then none else some ([], rest.drop (j + 1))
      | none => none
    else none

/-- Named character references recognised by the model of
`html.unescape` (the HTML5 table of CPython is a superset; these are the
references relevant to the inputs considered here). -/
def entityTable : List (Str × Char) :=
  [("amp;".data, '&'), ("lt;".data, '\x3c'), ("gt;".data, '\x3e'),
   ("quot;".data, '"'), ("apos;".data, '\x27')]

/-- Parse the decimal digits of a numeric character reference, up to a
terminating semicolon. -/
def parseDecRef : Str → Nat → Nat → Option (Nat × Str)
  | [], _, _ => none
  | c :: rest, acc, ndigits =>
    if c.isDigit then parseDecRef rest (acc * 10 + (c.toNat - 48)) (ndigits + 1)
    else if c = ';' ∧ ndigits > 0 then some (acc, rest)
    else none

/-- Hexadecimal digit value. -/
def hexVal (c : Char) : Option Nat :=
  if c.isDigit then some (c.toNat - 48)
  else if 'a' ≤ c ∧ c ≤ 'f' then some (c.toNat - 87)
  else if 'A' ≤ c ∧ c ≤ 'F' then some (c.toNat - 55)
  else none

/-- Parse the hexadecimal digits of a numeric character reference. -/
def parseHexRef : Str → Nat → Nat → Option (Nat × Str)
  | [], _, _ => none
  | c :: rest, acc, ndigits =>
    match hexVal c with
    | some v => parseHexRef rest (acc * 16 + v) (ndigits + 1)
    | none => if c = ';' ∧ ndigits > 0 then some (acc, rest) else none

/-- Turn a numeric reference into a character, as `html.unescape` does
for code points in range (out-of-range values give U+FFFD). -/
def refChar (n : Nat) : Char :=
  if n.isValidChar then Char.ofNat n else Char.ofNat 0xFFFD

/-- Step for the model of `html.unescape`: at `&`, decode a named
reference from `entityTable` or a semicolon-terminated numeric reference
(`&#NNN;` or `&#xHHH;`); anything else is left alone. -/
def refStep (s : Str) : Option (Str × Str) :=
  match s with
  | [] => none
  | c :: rest =>
    if c = '&' then
      match rest with
      | '#' :: r1 =>
        match r1 with
        | x :: r2 =>
          if x = 'x' ∨ x = 'X' then
            match parseHexRef r2 0 0 with
            | some (n, r3) => some ([refChar n], r3)
            | none => none
          else
            match parseDecRef r1 0 0 with
            | some (n, r3) => some ([refChar n], r3)
            | none => none
        | [] => none
      | _ =>
        match entityTable.find? (fun e => listPre e.1 rest) with
        | some e => some ([e.2], rest.drop e.1.length)
        | none => none
    else none

/-- Characters removed by Python `str.strip()` (the ASCII whitespace
set; the inputs handled here are ASCII). -/
def isPySpace (c : Char) : Bool :=
  c = ' ' ∨ c = '\t' ∨ c = '\n' ∨ c = '\r' ∨ c = '\x0b' ∨ c = '\x0c'

/-- Python `str.strip()`: drop whitespace from both ends. -/
def pyStrip (s : Str) : Str :=
  List.rdropWhile isPySpace (List.dropWhile isPySpace s)

/-- Model of `html.unescape` over the references in `refStep`. -/
def unescape (s : Str) : Str := subScan refStep s.length s

/-- The script-block removal pass of `_strip_tags`. -/
def removeScriptBlocks (s : Str) : Str :=
  subScan (blockStep "script".data "</script>".data) s.length s

/-- The style-block removal pass of `_strip_tags`. -/
def removeStyleBlocks (s : Str) : Str :=
  subScan (blockStep "style".data "</style>".data) s.length s

/-- The tag-removal pass of `_strip_tags`. -/
def removeAllTags (s : Str) : Str := subScan tagStep s.length s

/-- The function `_strip_tags`: remove script blocks, style blocks and
remaining tags, decode HTML entities, trim surrounding whitespace. -/
def strip_tags (s : Str) : Str :=
  pyStrip (unescape (removeAllTags (removeStyleBlocks (removeScriptBlocks s))))

/-! ## _normalize -/

/-- Step for `re.sub(r'[ \t]+', ' ', text)`: a maximal run of spaces and
tabs becomes a single space. -/
def spaceRunStep (s : Str) : Option (Str × Str) :=
  match s with
  | [] => none
  | c :: rest =>
    if c = ' ' ∨ c = '\t' then
      some ([' '], rest.dropWhile (fun x => x = ' ' ∨ x = '\t'))
    else none

/-- Step for `re.sub(r'\n\x7b3,\x7d', '\n\n', text)`: a run of three or
more newlines becomes exactly two; shorter runs are left alone. -/
def newlineRunStep (s : Str) : Option (Str × Str) :=
  match s with
  | [] => none
  | c :: rest =>
    if c = '\n' then
      let run := 1 + (rest.takeWhile (fun x => x = '\n')).length
      if run ≥ 3 then some (['\n', '\n'], rest.dropWhile (fun x => x = '\n'))
      else none
    else none

/-- The function `_normalize`: collapse space/tab runs, collapse runs of
three or more newlines to two, trim surrounding whitespace. -/
def normalize (s : Str) : Str :=
  let t1 := subScan spaceRunStep s.length s
  pyStrip (subScan newlineRunStep t1.length t1)

/-! ## _to_markdown

Each regex substitution of `_to_markdown` becomes one scanner step.  The
anchor step models
`re.sub(r'<a\s+[^>]*href=["\x27]([^"\x27]+)["\x27][^>]*>([\s\S]*?)</a>', ...)`:
after `<a` and whitespace, the `href=` attribute is located before the
closing `>` of the tag, its quoted value captured, and the link text runs
lazily to the first `</a>`. -/

/-- Locate `pat` (case-insensitively) without crossing a `>`. -/
def findBeforeGt (pat : Str) : Str → Option Nat
  | [] => none
  | c :: rest =>
    if c = '\x3e' then none
    else if listPreCI pat (c :: rest) then some 0
    else (findBeforeGt pat rest).map (· + 1)

/-- Parse the inside of an opening anchor tag (the input starts right
after `<a`): require leading whitespace, locate `href=` before the `>`
of the tag, read the quoted value, and return it together with the text
following the tag's closing `>`. -/
def parseAnchorTag (r2 : Str) : Option (Str × Str) :=
  match r2 with
  | [] => none
  | w :: _ =>
    if isPySpace w then
      match findBeforeGt "href=".data r2 with
      | some i =>
        match r2.drop (i + 5) with
        | q :: r3 =>
          if q = '"' ∨ q = '\x27' then
            let href := r3.takeWhile (fun x => ¬ (x = '"' ∨ x = '\x27'))
            if href = [] then none
            else
              match r3.drop href.length with
              | q2 :: r5 =>
                if q2 = '"' ∨ q2 = '\x27' then
                  match r5.findIdx? (fun x => x == '\x3e') with
                  | some j => some (href, r5.drop (j + 1))
                  | none => none
                else none
              | [] => none
          else none
        | [] => none
      | none => none
    else none

/-- Anchor substitution step: `<a ... href="U" ...>inner</a>` becomes
`[strip_tags(inner)](U)`. -/
def anchorStep (s : Str) : Option (Str × Str) :=
  match s with
  | [] => none
  | c :: r1 =>
    if c = '\x3c' then
      match r1 with
      | a :: r2 =>
        if a = 'a' ∨ a = 'A' then
          match parseAnchorTag r2 with
          | some (href, afterTag) =>
            match findCI "</a>".data afterTag with
            | some j =>
              some (('[' :: strip_tags (afterTag.take j)) ++
                    (']' :: '(' :: href) ++ [')'], afterTag.drop (j + 4))
            | none => none
          | none => none
        else none
      | [] => none
    else none

/-- Heading substitution step: `<hN ...>inner</hN>` (N in 1..6) becomes a
newline, N hash marks, a space, the stripped inner text and a newline. -/
def headingStep (s : Str) : Option (Str × Str) :=
  match s with
  | c :: h :: d :: rest =>
    if c = '\x3c' ∧ (h = 'h' ∨ h = 'H') ∧ ('1' ≤ d ∧ d ≤ '6') then
      match rest.findIdx? (fun x => x == '\x3e') with
      | some j =>
        let body := rest.drop (j + 1)
        match findCI ('\x3c' :: '/' :: 'h' :: [d, '\x3e']) body with
        | some k =>
          some (('\n' :: List.replicate (d.toNat - '0'.toNat) '#') ++
                (' ' :: strip_tags (body.take k)) ++ ['\n'], body.drop (k + 5))
        | none => none
      | none => none
    else none
  | _ => none

/-- List-item substitution step: `<li ...>inner</li>` becomes a newline,
a dash, a space and the stripped inner text. -/
def liStep (s : Str) : Option (Str × Str) :=
  match s with
  | c :: l :: i :: rest =>
    if c = '\x3c' ∧ (l = 'l' ∨ l = 'L') ∧ (i = 'i' ∨ i = 'I') then
      match rest.findIdx? (fun x => x == '\x3e') with
      | some j =>
        let body := rest.drop (j + 1)
        match findCI "</li>".data body with
        | some k =>
          some ('\n' :: '-' :: ' ' :: strip_tags (body.take k), body.drop (k + 5))
        | none => none
      | none => none
    else none
  | _ => none

/-- Closing-block substitution step: `</p>`, `</div>`, `</section>` and
`</article>` become a blank line. -/
def closeBlockStep (s : Str) : Option (Str × Str) :=
  match s with
  | c :: sl :: rest =>
    if c = '\x3c' ∧ sl = '/' then
      if listPreCI "p\x3e".data rest then some ("\n\n".data, rest.drop 2)
      else if listPreCI "div\x3e".data rest then some ("\n\n".data, rest.drop 4)
      else if listPreCI "section\x3e".data rest then some ("\n\n".data, rest.drop 8)
      else if listPreCI "article\x3e".data rest then some ("\n\n".data, rest.drop 8)
      else none
    else none
  | _ => none

/-- Break substitution step: `<br>`, `<hr>` and their self-closing forms
become a newline. -/
def brHrStep (s : Str) : Option (Str × Str) :=
  match s with
  | c :: t1 :: t2 :: rest =>
    if c = '\x3c' ∧
        (((t1 = 'b' ∨ t1 = 'B') ∨ (t1 = 'h' ∨ t1 = 'H')) ∧ (t2 = 'r' ∨ t2 = 'R')) then
      let r2 := rest.dropWhile isPySpace
      let r3 := match r2 with
        | '/' :: rr => rr
        | _ => r2
      match r3 with
      | '\x3e' :: r4 => some (['\n'], r4)
      | _ => none
    else none
  | _ => none

/-- The method `_to_markdown`: the five regex substitutions in source
order, then `_normalize(_strip_tags(text))`. -/
def to_markdown (h : Str) : Str :=
  let t1 := subScan anchorStep h.length h
  let t2 := subScan headingStep t1.length t1
  let t3 := subScan liStep t2.length t2
  let t4 := subScan closeBlockStep t3.length t3
  let t5 := subScan brHrStep t4.length t4
  normalize (strip_tags t5)

/-! ## _validate_url -/

/-- Characters allowed in a URL scheme (`scheme_chars` of urllib). -/
def isSchemeChar (c : Char) : Bool :=
  c.isAlpha || c.isDigit || c = '+' || c = '-' || c = '.'

/-- The WHATWG C0-control-or-space set of `urlsplit` (code points 0x00
through 0x20), stripped from the front of every URL. -/
def isC0ControlOrSpace (c : Char) : Bool := c.toNat ≤ 0x20

/-- The input sanitization of `urllib.parse.urlsplit` (Python 3.11):
leading C0-control and space characters are stripped, and every tab,
carriage return and newline is removed anywhere in the URL. -/
def sanitizeUrl (url : Str) : Str :=
  (url.dropWhile isC0ControlOrSpace).filter
    (fun c => ¬ (c = '\t' ∨ c = '\r' ∨ c = '\n'))

/-- The scheme split of `urllib.parse.urlparse`, applied to the
sanitized URL: when a colon occurs at some position i greater than 0,
the first character is an ASCII letter and everything before the colon
is a scheme character, the scheme is the lowercased text before the
colon and the rest follows the colon; otherwise the scheme is empty and
the URL is left whole. -/
def pySplitScheme (url : Str) : Str × Str :=
  match url.findIdx? (fun c => c == ':') with
  | none => ([], url)
  | some i =>
    match url with
    | [] => ([], url)
    | c0 :: _ =>
      if 0 < i ∧ c0.isAlpha ∧ (url.take i).all isSchemeChar then
        (lowerStr (url.take i), url.drop (i + 1))
      else ([], url)

/-- The netloc split of `urlparse`: when the remainder after the scheme
starts with two slashes, the netloc extends to the first slash, question
mark or hash sign after them. -/
def pySplitNetloc (rest : Str) : Str :=
  match rest with
  | '/' :: '/' :: r =>
    r.take ((r.findIdx? (fun c => c == '/' || c == '?' || c == '#')).getD r.length)
  | _ => []

/-- The netloc split together with the mismatched-bracket check of
`urlsplit`: a netloc containing one bracket of an IPv6 pair without the
other raises `ValueError("Invalid IPv6 URL")`.  (The further
well-formedness validation of fully bracketed hosts, which needs an
IPv6/IPvFuture address parser, is outside this model; the theorems
below restrict their general clauses to bracket-free ASCII netlocs.) -/
def pySplitNetlocChecked (rest : Str) : Except Str Str :=
  let netloc := pySplitNetloc rest
  if ('\x5b' ∈ netloc ∧ ¬ '\x5d' ∈ netloc) ∨ ('\x5d' ∈ netloc ∧ ¬ '\x5b' ∈ netloc) then
    .error "Invalid IPv6 URL".data
  else .ok netloc

/-- Single quotation mark, as used by the validation error message. -/
def sqm : Char := '\x27'

/-- The function `_validate_url`: parse the URL (any `ValueError` the
parse raises is caught by the except branch and its text returned),
then accept only http/https schemes with a present network location,
reporting a descriptive error otherwise. -/
def validate_url (url : Str) : Bool × Str :=
  let p := pySplitScheme (sanitizeUrl url)
  match pySplitNetlocChecked p.2 with
  | .error e => (false, e)
  | .ok netloc =>
    if ¬ (p.1 = "http".data ∨ p.1 = "https".data) then
      (false, "Only http/https allowed, got ".data ++ [sqm] ++
        (if p.1 = [] then "none".data else p.1) ++ [sqm])
    else if netloc = [] then
      (false, "Missing domain".data)
    else (true, [])

/-! ## WebFetchTool.execute -/

/-- JSON values, as produced by Python's `r.json()` on the response
body (numbers restricted to integers). -/
inductive JsonVal
  | null
  | bool (b : Bool)
  | num (n : Int)
  | str (s : Str)
  | arr (xs : List JsonVal)
  | obj (kvs : List (Str × JsonVal))
deriving Repr

/-- Lowercase hexadecimal digit. -/
def hexDigit (n : Nat) : Char :=
  if n < 10 then Char.ofNat (48 + n) else Char.ofNat (87 + n)

/-- Decimal digits of a natural number (fuel-based). -/
def natDigitsAux (fuel n : Nat) : Str :=
  match fuel, n with
  | _, 0 => []
  | 0, _ => []
  | fuel + 1, m => natDigitsAux fuel (m / 10) ++ [Char.ofNat (48 + m % 10)]

/-- Python's decimal rendering of an integer. -/
def intToStr (n : Int) : Str :=
  if n = 0 then ['0']
  else if n < 0 then '-' :: natDigitsAux (n.natAbs + 1) n.natAbs
  else natDigitsAux (n.natAbs + 1) n.natAbs

/-- JSON string escaping with `ensure_ascii=False`: only the quote, the
backslash and control characters are escaped; non-ASCII text passes
through unchanged. -/
def jsonEscapeChar (c : Char) : Str :=
  if c = '"' then ['\\', '"']
  else if c = '\\' then ['\\', '\\']
  else if c = '\n' then ['\\', 'n']
  else if c = '\t' then ['\\', 't']
  else if c = '\r' then ['\\', 'r']
  else if c = '\x08' then ['\\', 'b']
  else if c = '\x0c' then ['\\', 'f']
  else if c.toNat < 32 then
    ['\\', 'u', '0', '0', hexDigit (c.toNat / 16), hexDigit (c.toNat % 16)]
  else [c]

/-- Escape a whole JSON string body. -/
def jsonEscapeStr (s : Str) : Str := (s.map jsonEscapeChar).flatten

mutual

/-- Python `json.dumps(v, indent=2, ensure_ascii=False)` at a given
nesting level: items of arrays and objects are placed one per line,
indented two spaces per level, with `", "`-free separators `,`-newline
and `: ` as `json.dumps` uses them when an indent is given. -/
def jsonDumps : JsonVal → Nat → Str
  | .null, _ => "null".data
  | .bool true, _ => "true".data
  | .bool false, _ => "false".data
  | .num n, _ => intToStr n
  | .str s, _ => ('"' :: jsonEscapeStr s) ++ ['"']
  | .arr [], _ => "[]".data
  | .arr (x :: xs), lvl =>
    ('[' :: '\n' :: jsonDumpsArr (x :: xs) (lvl + 1)) ++
      ('\n' :: List.replicate (2 * lvl) ' ') ++ [']']
  | .obj [], _ => "\x7b\x7d".data
  | .obj (kv :: kvs), lvl =>
    ('\x7b' :: '\n' :: jsonDumpsObj (kv :: kvs) (lvl + 1)) ++
      ('\n' :: List.replicate (2 * lvl) ' ') ++ ['\x7d']

/-- Array items, one per line. -/
def jsonDumpsArr : List JsonVal → Nat → Str
  | [], _ => []
  | [x], lvl => List.replicate (2 * lvl) ' ' ++ jsonDumps x lvl
  | x :: y :: xs, lvl =>
    List.replicate (2 * lvl) ' ' ++ jsonDumps x lvl ++
      (',' :: '\n' :: jsonDumpsArr (y :: xs) lvl)

/-- Object entries, one per line, `": "` between key and value. -/
def jsonDumpsObj : List (Str × JsonVal) → Nat → Str
  | [], _ => []
  | [(k, v)], lvl =>
    List.replicate (2 * lvl) ' ' ++ ('"' :: jsonEscapeStr k) ++
      ('"' :: ':' :: ' ' :: jsonDumps v lvl)
  | (k, v) :: kv2 :: kvs, lvl =>
    List.replicate (2 * lvl) ' ' ++ ('"' :: jsonEscapeStr k) ++
      ('"' :: ':' :: ' ' :: jsonDumps v lvl) ++
      (',' :: '\n' :: jsonDumpsObj (kv2 :: kvs) lvl)

end

/-- The parts of an HTTP response, and of the external libraries'
processing of its body, that `WebFetchTool.execute` consumes.  The
body's JSON parse (`r.json()`, the json standard library) and the
readability title and summary (the readability package) are outcomes of
code outside this repository, supplied as oracle fields. -/
structure HttpResponse where
  ctype : Str
  body : Str
  jsonBody : Except Str JsonVal
  readTitle : Str
  readSummary : Str
  finalUrl : Str
  status : Int

/-- The HTML sniff
`r.text[:256].lower().startswith(("<!doctype", "<html"))`. -/
def startsWithHtmlMarker (body : Str) : Bool :=
  listPre "\x3c!doctype".data (lowerStr (body.take 256)) ||
    listPre "\x3chtml".data (lowerStr (body.take 256))

/-- Python `maxChars or self.max_chars`: a missing (or zero, falsy)
per-call override falls back to the configured default. -/
def effectiveMaxChars (maxChars : Option Nat) (dflt : Nat) : Nat :=
  match maxChars with
  | some m => if m = 0 then dflt else m
  | none => dflt

/-- The content-type dispatch of `WebFetchTool.execute`: the extracted
text and the extractor tag, or the text of a raised-and-caught
exception (a JSON body that fails to parse). -/
def extractContent (extractMode : Str) (r : HttpResponse) : Except Str (Str × Str) :=
  if pyContains r.ctype "application/json".data then
    match r.jsonBody with
    | .ok v => .ok (jsonDumps v 0, "json".data)
    | .error e => .error e
  else if pyContains r.ctype "text/html".data || startsWithHtmlMarker r.body then
    let content := if extractMode = "markdown".data then to_markdown r.readSummary
      else strip_tags r.readSummary
    let text := if r.readTitle ≠ [] then
        ('#' :: ' ' :: r.readTitle) ++ ('\n' :: '\n' :: content)
      else content
    .ok (text, "readability".data)
  else .ok (r.body, "raw".data)

/-- The JSON object `WebFetchTool.execute` returns: the success shape
carrying url, finalUrl, status, extractor, truncated, length and text,
or the failure shape carrying the error and the original url. -/
inductive FetchOutcome
  | success (url finalUrl : Str) (status : Int) (extractor : Str)
      (truncated : Bool) (length : Nat) (text : Str)
  | failure (error url : Str)
deriving DecidableEq, Repr

/-- The method `WebFetchTool.execute`: resolve the character budget,
validate the URL before anything else, then fetch (the transfer is an
oracle: `resp` is the response or the text of the exception the
`try` block caught), dispatch on content type, truncate and report. -/
def webFetchExecute (url extractMode : Str) (maxChars : Option Nat)
    (dfltMaxChars : Nat) (resp : Except Str HttpResponse) : FetchOutcome :=
  let max_chars := effectiveMaxChars maxChars dfltMaxChars
  if (validate_url url).1 = false then
    .failure ("URL validation failed: ".data ++ (validate_url url).2) url
  else
    match resp with
    | .error e => .failure e url
    | .ok r =>
      match extractContent extractMode r with
      | .error e => .failure e url
      | .ok (text, extractor) =>
        .success url r.finalUrl r.status extractor
          (decide (text.length > max_chars))
          (if text.length > max_chars then text.take max_chars else text).length
          (if text.length > max_chars then text.take max_chars else text)

/-! ## WebSearchTool.execute and session initialization -/

/-- Python `self._init_api_key or os.environ.get("DASHSCOPE_API_KEY", "")`:
an absent or empty constructor credential falls back to the environment
value (the empty string when the variable is unset). -/
def resolveApiKey (initKey : Option Str) (envKey : Str) : Str :=
  match initKey with
  | some k => if k = [] then envKey else k
  | none => envKey

/-- How far `WebSearchTool.execute` gets before any network activity:
the early missing-credential return, or entry into the network phase
(session handshake and search call). -/
inductive SearchStart
  | earlyError (msg : Str)
  | network (apiKey : Str)
deriving DecidableEq, Repr

/-- The head of `WebSearchTool.execute`: an empty (falsy) credential
returns the missing-credential message at once; otherwise the session
handshake and the search request follow. -/
def webSearchExecuteStart (_query : Str) (_count : Option Int) (apiKey : Str) :
    SearchStart :=
  if apiKey = [] then
    .earlyError ("Error: DashScope API key not configured. ".data ++
      "Set DASHSCOPE_API_KEY in your environment variables.".data)
  else .network apiKey

/-- The keyword test of the discovery loop:
`"search" in name.lower() or "web" in name.lower()`. -/
def toolNameMatch (n : Str) : Bool :=
  pyContains (lowerStr n) "search".data || pyContains (lowerStr n) "web".data

/-- Keys of the `_available_tools` dict after the discovery loop:
insertion order, duplicates collapsed onto their first position. -/
def firstKeys : List Str → List Str
  | [] => []
  | n :: rest => n :: firstKeys (rest.filter (fun m => ¬ m = n))
termination_by l => l.length
decreasing_by
  simp only [List.length_cons]
  exact Nat.lt_succ_of_le (List.length_filter_le _ _)

/-- The search-tool selection of `_ensure_session_initialized`: the loop
assigns every matching name (later matches overwrite earlier ones), and
only when none matched does the first key of the tools dict serve as
fallback; with no tools the selection stays empty (an error is raised). -/
def selectSearchTool (names : List Str) : Option Str :=
  match names.foldl (fun acc n => if toolNameMatch n then some n else acc)
      (none : Option Str) with
  | some n => some n
  | none => (firstKeys names).head?

theorem subScan_eq_self (step : Str → Option (Str × Str)) (trigger : Char)
    (hstep : ∀ c rest, c ≠ trigger → step (c :: rest) = none) :
    ∀ (fuel : Nat) (s : Str), trigger ∉ s → subScan step fuel s = s := by
  intro fuel
  induction fuel with
  | zero => intro s _; cases s <;> rfl
  | succ n ih =>
    intro s hs
    cases s with
    | nil => rfl
    | cons c rest =>
      have hc : c ≠ trigger := fun e => hs (e ▸ List.mem_cons_self c rest)
      have hrw : subScan step (n + 1) (c :: rest) = c :: subScan step n rest := by
        simp [subScan, hstep c rest hc]
      rw [hrw, ih rest (fun hr => hs (List.mem_cons_of_mem c hr))]

theorem blockStep_nontrigger (ot ct : Str) (c : Char) (rest : Str) (hc : c ≠ '\x3c') :
    blockStep ot ct (c :: rest) = none := by
  simp [blockStep, hc]

theorem tagStep_nontrigger (c : Char) (rest : Str) (hc : c ≠ '\x3c') :
    tagStep (c :: rest) = none := by
  simp [tagStep, hc]

theorem refStep_nontrigger (c : Char) (rest : Str) (hc : c ≠ '&') :
    refStep (c :: rest) = none := by
  simp [refStep, hc]

theorem dropWhile_pyStrip (s : Str) :
    List.dropWhile isPySpace (pyStrip s) = pyStrip s := by
  unfold pyStrip
  have hself : List.dropWhile isPySpace (List.dropWhile isPySpace s) =
      List.dropWhile isPySpace s := List.dropWhile_idempotent isPySpace s
  obtain ⟨tail, htail⟩ :=
    List.rdropWhile_prefix isPySpace (List.dropWhile isPySpace s)
  cases h : List.rdropWhile isPySpace (List.dropWhile isPySpace s) with
  | nil => simp
  | cons x xs =>
    have hxa : List.dropWhile isPySpace s = x :: (xs ++ tail) := by
      rw [← htail, h]; simp
    have hself2 : List.dropWhile isPySpace (x :: (xs ++ tail)) = x :: (xs ++ tail) := by
      rw [← hxa]; exact hself
    have hx : ¬ isPySpace x = true := by
      have := List.dropWhile_eq_self_iff.mp hself2 (by simp)
      simpa using this
    rw [List.dropWhile_cons]
    simp [hx]

theorem pyStrip_idem (s : Str) : pyStrip (pyStrip s) = pyStrip s := by
  have h1 : pyStrip (pyStrip s) =
      List.rdropWhile isPySpace (List.dropWhile isPySpace (pyStrip s)) := rfl
  rw [h1, dropWhile_pyStrip s]
  show List.rdropWhile isPySpace
      (List.rdropWhile isPySpace (List.dropWhile isPySpace s)) = _
  rw [List.rdropWhile_idempotent]
  rfl

theorem strip_tags_of_clean (t : Str) (h1 : '\x3c' ∉ t) (h2 : '&' ∉ t) :
    strip_tags t = pyStrip t := by
  unfold strip_tags removeScriptBlocks removeStyleBlocks removeAllTags unescape
  rw [subScan_eq_self _ '\x3c' (fun c rest hc => blockStep_nontrigger _ _ c rest hc) _ _ h1]
  rw [subScan_eq_self _ '\x3c' (fun c rest hc => blockStep_nontrigger _ _ c rest hc) _ _ h1]
  rw [subScan_eq_self _ '\x3c' (fun c rest hc => tagStep_nontrigger c rest hc) _ _ h1]
  rw [subScan_eq_self _ '&' (fun c rest hc => refStep_nontrigger c rest hc) _ _ h2]

theorem dictLookup_dictInsert (k : Str) (v : ArgValue) (d : List (Str × ArgValue)) :
    dictLookup (dictInsert k v d) k = some v := by
  induction d with
  | nil => simp [dictInsert, dictLookup]
  | cons hd tl ih =>
    obtain ⟨k2, v2⟩ := hd
    by_cases h : k2 = k
    · simp [dictInsert, dictLookup, h]
    · simp [dictInsert, dictLookup, h, ih]

/-- C1: the query-field resolution of `_build_arguments` scans the schema's
properties keys in declared order and selects the first key whose lowercase
form equals or contains "query"; if none matches it scans the required list
with the same predicate; if still none it uses the literal key "query".
For the schema with properties (search_query, result_count) and required
(search_query), inputs ("test query", 3) resolve search_query to the query
string (and result_count to 3). -/
theorem query_key_resolution (schema : InputSchema) :
    queryKeyCode schema = resolveQueryKeySpec schema ∧
    build_arguments ⟨["search_query".data, "result_count".data], ["search_query".data]⟩
        "test query".data (some 3) 10 =
      [("search_query".data, .str "test query".data), ("result_count".data, .int 3)] := by
  exact ⟨rfl, by decide⟩

/-- C2 counterexample: for count input 0 with default max_results 10 and a
schema whose only property is result_count, the code assigns 10 (because
Python's `count or self.max_results` treats 0 as falsy), not
clamp(0, 1, 10) = 1 as the claim states. -/
theorem count_zero_counterexample :
    dictLookup (build_arguments ⟨["result_count".data], []⟩ "q".data (some 0) 10)
        "result_count".data = some (.int 10) ∧
    ¬ (10 : Int) = clampSpec 0 := by
  decide

/-- C2 (amended): when the schema has a count-like field, that field is
assigned `min(max(count or max_results, 1), 10)`: a missing count or a
count of 0 (both falsy in Python) is replaced by the configured default
max_results before clamping to [1, 10]; any other count c is clamped to
clamp(c, 1, 10). -/
theorem count_value_amended (schema : InputSchema) (q : Str) (c : Option Int)
    (m : Int) (k : Str) (hk : countKeyCode schema = some k) :
    dictLookup (build_arguments schema q c m) k = some (.int (clampCount c m)) ∧
    ((c = none ∨ c = some 0) → clampCount c m = clampSpec m) ∧
    (∀ n : Int, c = some n → n ≠ 0 → clampCount c m = clampSpec n) := by
  refine ⟨?_, ?_, ?_⟩
  · unfold build_arguments
    rw [hk]
    exact dictLookup_dictInsert ..
  · rintro (rfl | rfl) <;> simp [clampCount, pyOrInt, clampSpec]
  · rintro n rfl hn
    simp [clampCount, pyOrInt, clampSpec, hn]

theorem count_value_amended_witness :
    dictLookup (build_arguments ⟨["result_count".data], []⟩ "q".data (some 3) 10)
        "result_count".data = some (.int (clampCount (some 3) 10)) ∧
    (((some 3 : Option Int) = none ∨ (some 3 : Option Int) = some 0) →
      clampCount (some 3) 10 = clampSpec 10) ∧
    (∀ n : Int, (some 3 : Option Int) = some n → n ≠ 0 →
      clampCount (some 3) 10 = clampSpec n) :=
  count_value_amended ⟨["result_count".data], []⟩ "q".data (some 3) 10
    "result_count".data (by decide)

/-- C3: when neither a properties key nor a required entry contains
"count", "num", "limit" or "size", the built arguments contain no count
entry at all: they are exactly the single query binding, so query
resolution is unaffected. In particular the schema with properties
(unknown_field, another_field), required (unknown_field) and inputs
("test query", 2) resolves to exactly the map sending "query" to
"test query". -/
theorem no_count_mapping (schema : InputSchema) (q : Str) (c : Option Int) (m : Int)
    (h : countKeyCode schema = none) :
    build_arguments schema q c m = [(queryKeyCode schema, ArgValue.str q)] ∧
    build_arguments ⟨["unknown_field".data, "another_field".data], ["unknown_field".data]⟩
        "test query".data (some 2) 10 = [("query".data, .str "test query".data)] := by
  refine ⟨?_, by decide⟩
  unfold build_arguments
  rw [h]
  rfl

theorem no_count_mapping_witness :
    build_arguments ⟨["unknown_field".data, "another_field".data], ["unknown_field".data]⟩
        "test query".data (some 2) 10 =
      [(queryKeyCode ⟨["unknown_field".data, "another_field".data], ["unknown_field".data]⟩,
        ArgValue.str "test query".data)] ∧
    build_arguments ⟨["unknown_field".data, "another_field".data], ["unknown_field".data]⟩
        "test query".data (some 2) 10 = [("query".data, .str "test query".data)] :=
  no_count_mapping ⟨["unknown_field".data, "another_field".data], ["unknown_field".data]⟩
    "test query".data (some 2) 10 (by decide)

/-- C5 counterexample: the tag-stripping function is not idempotent. On
the input "&lt;b&gt;" the first pass finds no tag and decodes the
entities, producing the tag text, and the second pass removes that tag,
yielding the empty string. -/
theorem strip_tags_not_idempotent :
    strip_tags "&lt;b&gt;".data = "\x3cb\x3e".data ∧
    strip_tags (strip_tags "&lt;b&gt;".data) = [] ∧
    ¬ strip_tags (strip_tags "&lt;b&gt;".data) = strip_tags "&lt;b&gt;".data := by
  decide

/-- C5 (amended): the tag-stripping function is idempotent on every
string whose stripped form contains no tag-opening character and no
entity-introducing ampersand; entity decoding can otherwise manufacture
new tags that a second pass removes. -/
theorem strip_tags_idem (s : Str) (h1 : '\x3c' ∉ strip_tags s)
    (h2 : '&' ∉ strip_tags s) :
    strip_tags (strip_tags s) = strip_tags s := by
  rw [strip_tags_of_clean _ h1 h2]
  unfold strip_tags
  exact pyStrip_idem _

theorem strip_tags_idem_witness :
    '\x3c' ∉ strip_tags " hi ".data ∧ '&' ∉ strip_tags " hi ".data ∧
    strip_tags (strip_tags " hi ".data) = strip_tags " hi ".data :=
  ⟨by decide, by decide, strip_tags_idem " hi ".data (by decide) (by decide)⟩

/-- C7 counterexample: the input "not-a-url" has an empty parsed scheme,
so the scheme check fires first and reports a scheme error with 'none';
the claim instead expects the missing-domain error for this input. -/
theorem not_a_url_counterexample :
    validate_url "not-a-url".data =
      (false, "Only http/https allowed, got ".data ++ [sqm] ++ "none".data ++ [sqm]) ∧
    ¬ (validate_url "not-a-url".data).2 = "Missing domain".data := by
  decide

/-- C7 (amended): URL validation runs before any network request, on
the sanitized URL (leading control/space stripped, tab/CR/LF removed
anywhere, as urlsplit does).  When the parse raises (a mismatched IPv6
bracket), the exception text is returned as the validation error.  An
ordinary (bracket-free, ASCII-netloc) URL whose parsed scheme is not
http or https is rejected with the scheme error; that includes
scheme-less inputs such as "not-a-url", reported as scheme 'none'.  An
http(s) URL with no network location is rejected with the missing-domain
error.  A rejected URL's fetch returns the validation failure no matter
what the network would have answered. -/
theorem url_validation_amended (url : Str) :
    (∀ netloc, pySplitNetlocChecked (pySplitScheme (sanitizeUrl url)).2 = .ok netloc →
      '\x5b' ∉ netloc → netloc.all (fun c => c.toNat ≤ 127) = true →
      (((pySplitScheme (sanitizeUrl url)).1 = "http".data ∨
          (pySplitScheme (sanitizeUrl url)).1 = "https".data) →
        netloc = [] → validate_url url = (false, "Missing domain".data)) ∧
      (¬ ((pySplitScheme (sanitizeUrl url)).1 = "http".data ∨
          (pySplitScheme (sanitizeUrl url)).1 = "https".data) →
        validate_url url = (false, "Only http/https allowed, got ".data ++ [sqm] ++
          (if (pySplitScheme (sanitizeUrl url)).1 = [] then "none".data
            else (pySplitScheme (sanitizeUrl url)).1) ++ [sqm]))) ∧
    (∀ e, pySplitNetlocChecked (pySplitScheme (sanitizeUrl url)).2 = .error e →
      validate_url url = (false, e)) ∧
    validate_url "ftp://example.com".data =
      (false, "Only http/https allowed, got ".data ++ [sqm] ++ "ftp".data ++ [sqm]) ∧
    validate_url "http://[::1".data = (false, "Invalid IPv6 URL".data) ∧
    validate_url " http://example.com".data = (true, []) ∧
    validate_url "ht\ttp://example.com".data = (true, []) ∧
    (∀ (extractMode : Str) (maxChars : Option Nat) (dflt : Nat)
        (resp resp2 : Except Str HttpResponse),
      (validate_url url).1 = false →
      webFetchExecute url extractMode maxChars dflt resp =
          webFetchExecute url extractMode maxChars dflt resp2 ∧
        webFetchExecute url extractMode maxChars dflt resp =
          .failure ("URL validation failed: ".data ++ (validate_url url).2) url) := by
  refine ⟨fun netloc hok _ _ => ⟨fun hs hn => ?_, fun hs => ?_⟩, fun e he => ?_,
    by decide, by decide, by decide, by decide, fun em mc d r1 r2 hv => ?_⟩
  · simp only [validate_url, hok]
    rw [if_neg (not_not_intro hs), if_pos hn]
  · simp only [validate_url, hok]
    rw [if_pos hs]
  · simp only [validate_url, he]
  · constructor <;> simp [webFetchExecute, hv]

theorem url_validation_amended_witness :
    validate_url "http://".data = (false, "Missing domain".data) ∧
    validate_url "ftp://example.com".data =
      (false, "Only http/https allowed, got ".data ++ [sqm] ++
        (if (pySplitScheme (sanitizeUrl "ftp://example.com".data)).1 = [] then "none".data
          else (pySplitScheme (sanitizeUrl "ftp://example.com".data)).1) ++ [sqm]) ∧
    validate_url "http://[::1".data = (false, "Invalid IPv6 URL".data) ∧
    webFetchExecute "ftp://example.com".data "markdown".data none 50000 (.error []) =
      .failure ("URL validation failed: ".data ++
        (validate_url "ftp://example.com".data).2) "ftp://example.com".data :=
  ⟨((url_validation_amended "http://".data).1 [] rfl (by decide) (by decide)).1
      (Or.inl (by decide)) rfl,
   ((url_validation_amended "ftp://example.com".data).1 "example.com".data rfl
      (by decide) (by decide)).2 (by decide),
   (url_validation_amended "http://[::1".data).2.1 "Invalid IPv6 URL".data rfl,
   ((url_validation_amended "ftp://example.com".data).2.2.2.2.2.2 "markdown".data none
      50000 (.error []) (.error []) (by decide)).2⟩

/-- C4: for every successfully extracted fetch, the returned text never
exceeds the effective character budget (per-call override or configured
default); the truncated flag holds iff the pre-truncation text exceeded
that budget; a truncated text equals exactly the first budget-many
characters of the untruncated text; and the reported length equals the
length of the returned (possibly truncated) text. -/
theorem fetch_truncation (url extractMode : Str) (maxChars : Option Nat)
    (dflt : Nat) (r : HttpResponse) (pre extractor : Str)
    (hv : (validate_url url).1 = true)
    (hx : extractContent extractMode r = .ok (pre, extractor)) :
    ∃ text : Str,
      webFetchExecute url extractMode maxChars dflt (.ok r) =
        .success url r.finalUrl r.status extractor
          (decide (pre.length > effectiveMaxChars maxChars dflt)) text.length text ∧
      text.length ≤ effectiveMaxChars maxChars dflt ∧
      (decide (pre.length > effectiveMaxChars maxChars dflt) = true ↔
        pre.length > effectiveMaxChars maxChars dflt) ∧
      (pre.length > effectiveMaxChars maxChars dflt →
        text = pre.take (effectiveMaxChars maxChars dflt)) ∧
      (¬ pre.length > effectiveMaxChars maxChars dflt → text = pre) := by
  have hv2 : ¬ ((validate_url url).1 = false) := by simp [hv]
  refine ⟨if pre.length > effectiveMaxChars maxChars dflt then
      pre.take (effectiveMaxChars maxChars dflt) else pre, ?_, ?_, ?_, ?_, ?_⟩
  · simp only [webFetchExecute, if_neg hv2, hx]
  · by_cases h : pre.length > effectiveMaxChars maxChars dflt
    · simp [h, List.length_take]
    · simp only [if_neg h]
      omega
  · exact decide_eq_true_iff
  · intro h; simp [h]
  · intro h; simp [h]

theorem fetch_truncation_witness :
    ∃ text : Str,
      webFetchExecute "http://example.com".data "text".data (some 3) 50000
          (.ok ⟨"text/plain".data, "aaaaa".data, .error [], [], [],
            "http://example.com".data, 200⟩) =
        .success "http://example.com".data "http://example.com".data 200 "raw".data
          (decide (("aaaaa".data).length > effectiveMaxChars (some 3) 50000))
          text.length text ∧
      text.length ≤ effectiveMaxChars (some 3) 50000 ∧
      (decide (("aaaaa".data).length > effectiveMaxChars (some 3) 50000) = true ↔
        ("aaaaa".data).length > effectiveMaxChars (some 3) 50000) ∧
      (("aaaaa".data).length > effectiveMaxChars (some 3) 50000 →
        text = ("aaaaa".data).take (effectiveMaxChars (some 3) 50000)) ∧
      (¬ ("aaaaa".data).length > effectiveMaxChars (some 3) 50000 →
        text = "aaaaa".data) :=
  fetch_truncation "http://example.com".data "text".data (some 3) 50000
    ⟨"text/plain".data, "aaaaa".data, .error [], [], [], "http://example.com".data, 200⟩
    "aaaaa".data "raw".data (by decide) rfl

/-- C8: every execution path of the fetch tool yields a structured
result: the success object (carrying the original url) or a failure
carrying an error text and the original url; no fault propagates. -/
theorem fetch_always_structured (url extractMode : Str) (maxChars : Option Nat)
    (dflt : Nat) (resp : Except Str HttpResponse) :
    (∃ finalUrl status extractor truncated ln text,
        webFetchExecute url extractMode maxChars dflt resp =
          .success url finalUrl status extractor truncated ln text) ∨
    (∃ e, webFetchExecute url extractMode maxChars dflt resp = .failure e url) := by
  by_cases hv : (validate_url url).1 = false
  · exact Or.inr ⟨"URL validation failed: ".data ++ (validate_url url).2,
      by simp [webFetchExecute, hv]⟩
  · cases resp with
    | error e => exact Or.inr ⟨e, by simp [webFetchExecute, hv]⟩
    | ok r =>
      cases hx : extractContent extractMode r with
      | error e => exact Or.inr ⟨e, by simp [webFetchExecute, hv, hx]⟩
      | ok p =>
        obtain ⟨text, extractor⟩ := p
        exact Or.inl ⟨r.finalUrl, r.status, extractor,
          decide (text.length > effectiveMaxChars maxChars dflt),
          (if text.length > effectiveMaxChars maxChars dflt then
            text.take (effectiveMaxChars maxChars dflt) else text).length,
          (if text.length > effectiveMaxChars maxChars dflt then
            text.take (effectiveMaxChars maxChars dflt) else text),
          by simp [webFetchExecute, hv, hx]⟩

/-- C9: the extractor is chosen by mutually exclusive checks in order:
a content type containing application/json parses the body and
pretty-prints it with 2-space indent and non-ASCII preserved, tagged
"json" (a parse failure surfaces as the caught error); otherwise a
content type containing text/html, or a doctype/html marker within the
first 256 characters, selects readability extraction, tagged
"readability"; otherwise the raw body passes through verbatim, tagged
"raw".  The final conjunct exhibits the 2-space-indent format. -/
theorem extractor_dispatch (extractMode : Str) (r : HttpResponse) :
    (pyContains r.ctype "application/json".data = true →
      (∀ v, r.jsonBody = .ok v →
        extractContent extractMode r = .ok (jsonDumps v 0, "json".data)) ∧
      (∀ e, r.jsonBody = .error e → extractContent extractMode r = .error e)) ∧
    (pyContains r.ctype "application/json".data = false →
      (pyContains r.ctype "text/html".data || startsWithHtmlMarker r.body) = true →
      ∃ t, extractContent extractMode r = .ok (t, "readability".data)) ∧
    (pyContains r.ctype "application/json".data = false →
      (pyContains r.ctype "text/html".data || startsWithHtmlMarker r.body) = false →
      extractContent extractMode r = .ok (r.body, "raw".data)) ∧
    jsonDumps (.obj [("a".data, .arr [.num 1])]) 0 =
      "\x7b\n  \"a\": [\n    1\n  ]\n\x7d".data := by
  refine ⟨fun hj => ⟨fun v hv => ?_, fun e he => ?_⟩,
    fun hj hh => ?_, fun hj hh => ?_, by decide⟩
  · simp [extractContent, hj, hv]
  · simp [extractContent, hj, he]
  · refine ⟨if r.readTitle ≠ [] then
        ('#' :: ' ' :: r.readTitle) ++ ('\n' :: '\n' ::
          (if extractMode = "markdown".data then to_markdown r.readSummary
           else strip_tags r.readSummary))
      else (if extractMode = "markdown".data then to_markdown r.readSummary
        else strip_tags r.readSummary), ?_⟩
    simp [extractContent, hj, hh]
  · simp [extractContent, hj, hh]

theorem extractor_dispatch_witness :
    extractContent "markdown".data
      ⟨"application/json".data, "\x7b\"a\": 1\x7d".data,
        .ok (.obj [("a".data, .num 1)]), [], [], [], 200⟩ =
      .ok (jsonDumps (.obj [("a".data, .num 1)]) 0, "json".data) :=
  ((extractor_dispatch "markdown".data
      ⟨"application/json".data, "\x7b\"a\": 1\x7d".data,
        .ok (.obj [("a".data, .num 1)]), [], [], [], 200⟩).1
    (by decide)).1 (.obj [("a".data, .num 1)]) rfl

/-- C6: with no constructor credential and no environment value, the
search execute returns the missing-credential message before entering
the network phase, for every query and count. -/
theorem missing_credential_early_return (query : Str) (count : Option Int) :
    ∃ msg, webSearchExecuteStart query count (resolveApiKey none []) =
        .earlyError msg ∧
      pyContains msg "DashScope API key not configured".data = true :=
  ⟨_, rfl, by decide⟩

theorem foldl_select_eq (l : List Str) (acc : Option Str) :
    l.foldl (fun a n => if toolNameMatch n then some n else a) acc =
      match (l.filter toolNameMatch).getLast? with
      | some x => some x
      | none => acc := by
  induction l generalizing acc with
  | nil => rfl
  | cons n rest ih =>
    rw [List.foldl_cons, ih, List.filter_cons]
    by_cases h : toolNameMatch n
    · rw [if_pos h, if_pos h]
      cases hfp : rest.filter toolNameMatch with
      | nil => rfl
      | cons y ys =>
        rw [List.getLast?_cons_cons]
        cases h2 : (y :: ys).getLast? with
        | none =>
          exact absurd (List.getLast?_eq_none_iff.mp h2) (by simp)
        | some x => rfl
    · rw [if_neg h, if_neg h]

theorem firstKeys_head (names : List Str) :
    (firstKeys names).head? = names.head? := by
  cases names with
  | nil => simp [firstKeys]
  | cons n rest => simp [firstKeys]

/-- C10: in the discovery loop each later name containing "search" or
"web" (case-insensitively) overwrites the previous selection, so with at
least one match the last matching name in discovery order is selected;
the fall-back to the first discovered operation applies only when no
name matches at all. -/
theorem search_tool_selection (names : List Str) :
    (names.filter toolNameMatch ≠ [] →
      selectSearchTool names = (names.filter toolNameMatch).getLast?) ∧
    (names.filter toolNameMatch = [] → selectSearchTool names = names.head?) ∧
    selectSearchTool ["websearch".data, "generic".data, "searchx".data] =
      some "searchx".data := by
  refine ⟨fun h => ?_, fun h => ?_, by decide⟩
  · unfold selectSearchTool
    rw [foldl_select_eq]
    cases hfp : (names.filter toolNameMatch).getLast? with
    | none => exact absurd (List.getLast?_eq_none_iff.mp hfp) h
    | some x => rfl
  · unfold selectSearchTool
    rw [foldl_select_eq, h]
    exact firstKeys_head names

theorem search_tool_selection_witness :
    selectSearchTool ["websearch".data] =
      (["websearch".data].filter toolNameMatch).getLast? ∧
    selectSearchTool ["abc".data] = (["abc".data] : List Str).head? :=
  ⟨(search_tool_selection ["websearch".data]).1 (by decide),
   (search_tool_selection ["abc".data]).2.1 (by decide)⟩

end Nanobot
